import Mathlib

/-!
Shallow embedding of the speech-to-clipboard Electron application
(`main.js`, `overlay.js`) for checking the natural-language specification.

External effects (PowerShell window calls, clipboard, HTTPS fetches, IPC)
are modelled as an event trace; the outcome of each fallible external call
is an explicit parameter. Machine state is carried explicitly:
`MainState` holds the main-process module variables, `RendererState` the
overlay-renderer module variables.
-/

namespace STC

/-- Observable boundary events, in the order the code performs them:
OS window calls, clipboard writes, IPC messages, remote HTTPS calls. -/
inductive Ev where
  /-- PowerShell `GetForegroundWindow` call made by `captureTargetWindow`. -/
  | captureForeground : Ev
  /-- Call `overlayWindow.setPosition` in `showOverlay`. -/
  | setPosition : Ev
  /-- Call `overlayWindow.show()` in `showOverlay`. -/
  | showWindow : Ev
  /-- Call `overlayWindow.focus()` in `showOverlay`. -/
  | focusWindow : Ev
  /-- Call `overlayWindow.hide()` in `hideOverlay`. -/
  | hideWindow : Ev
  /-- Message `webContents.send("reset-ui")` in `hideOverlay`. -/
  | sendResetUI : Ev
  /-- Call `clipboard.writeText(text)` in the paste-text handler. -/
  | clipboardWrite (text : String) : Ev
  /-- PowerShell `SetForegroundWindow(handle)` call in `restoreTargetWindow`. -/
  | restoreCall (handle : String) : Ev
  /-- The `sleep(ms)` settle delay in the paste-text handler. -/
  | sleepCall (ms : Nat) : Ev
  /-- PowerShell `SendKeys ^v` call in `simulatePaste`. -/
  | injectPaste : Ev
  /-- An IPC round trip on `get-api-key` (renderer asks the main process for the key). -/
  | getApiKeyCall : Ev
  /-- HTTPS POST to the Groq transcription endpoint with the given bearer key. -/
  | fetchTranscription (apiKey : String) : Ev
  /-- HTTPS POST to the Groq chat-completions endpoint with the given key and raw text. -/
  | fetchCorrection (apiKey : String) (rawText : String) : Ev
  deriving DecidableEq, Repr

/-- The main-process module-level state (`main.js`): the clipboard content (an
OS resource written only by this process in this model), the
`isOverlayVisible` flag, and the `targetWindowHandle` variable, which is a
JS string or `null` (`none`). -/
structure MainState where
  clipboard : String
  isOverlayVisible : Bool
  targetWindowHandle : Option String
  deriving DecidableEq, Repr

/-- JS truthiness fallback `x || d` for an optional string: `null`/missing and
the empty string are falsy. Used for `whisperResult.text || ""`,
`parsed.error?.message || msg` and `s.get("groqApiKey") || ""`. -/
def jsOr (x : Option String) (d : String) : String :=
  match x with
  | none => d
  | some s => if s = "" then d else s

/-- JS `String.prototype.trim`: drops leading and trailing whitespace
characters (ASCII whitespace suffices for this model). Implemented by
structural recursion over the character list so it evaluates on concrete
inputs. -/
def jsTrim (s : String) : String :=
  ⟨((s.data.dropWhile Char.isWhitespace).reverse.dropWhile
      Char.isWhitespace).reverse⟩

/-- Model of `captureTargetWindow` (main.js): runs PowerShell `GetForegroundWindow`.
On success the trimmed stdout becomes `targetWindowHandle`; if the call
throws, `targetWindowHandle` is set to `null` (never left stale).
`osResult` is the external outcome (`none` = the call threw). -/
def captureTargetWindow (st : MainState) (osResult : Option String) :
    MainState × List Ev :=
  match osResult with
  | some h => ({ st with targetWindowHandle := some h }, [Ev.captureForeground])
  | none => ({ st with targetWindowHandle := none }, [Ev.captureForeground])

/-- Model of `showOverlay` (main.js): captures the foreground window first, then
repositions, shows and focuses the overlay and marks it visible.
(The `overlayWindow` is created at startup and is assumed to exist.) -/
def showOverlay (st : MainState) (osResult : Option String) :
    MainState × List Ev :=
  let r := captureTargetWindow st osResult
  ({ r.1 with isOverlayVisible := true },
   r.2 ++ [Ev.setPosition, Ev.showWindow, Ev.focusWindow])

/-- Model of `hideOverlay` (main.js): hides the window, clears the visibility flag and
sends `reset-ui` to the renderer. -/
def hideOverlay (st : MainState) : MainState × List Ev :=
  ({ st with isOverlayVisible := false }, [Ev.hideWindow, Ev.sendResetUI])

/-- Model of `toggleOverlay` (main.js): hide when visible, show otherwise. This is the
activation trigger (global shortcut / tray double-click). -/
def toggleOverlay (st : MainState) (osResult : Option String) :
    MainState × List Ev :=
  if st.isOverlayVisible then hideOverlay st else showOverlay st osResult

/-- Model of `restoreTargetWindow` (main.js): if `targetWindowHandle` is falsy (`null`
or the empty string) it resolves immediately with no OS call; otherwise it
runs PowerShell `SetForegroundWindow`. An exec error is logged and swallowed,
so this function always resolves and its trace does not depend on the
outcome. -/
def restoreTargetWindow (st : MainState) : List Ev :=
  match st.targetWindowHandle with
  | none => []
  | some h => if h = "" then [] else [Ev.restoreCall h]

/-- The value resolved by the `paste-text` IPC handler: `{ success: true }`
or `{ success: false, error: message }`. -/
structure PasteResult where
  success : Bool
  error : Option String
  deriving DecidableEq, Repr

/-- External outcomes of the fallible steps inside the `paste-text` handler:
a throw from `clipboard.writeText`, an exec error during focus restore
(logged and swallowed by `restoreTargetWindow`), and an exec error in
`simulatePaste` (which rejects with `SendKeys failed: ...`). `none` means
the step succeeded. -/
structure PasteEnv where
  clipboardErr : Option String
  restoreExecErr : Option String
  sendKeysErr : Option String
  deriving DecidableEq, Repr

/-- Result of one run of the `paste-text` handler: the new main-process
state, the event trace, and the resolved value. -/
structure PasteStep where
  main : MainState
  trace : List Ev
  result : PasteResult
  deriving DecidableEq, Repr

/-- The `paste-text` IPC handler (main.js): inside one try/catch it
(1) writes `text` to the clipboard, (2) hides the overlay, (3) awaits
`restoreTargetWindow` (best-effort, never rejects), (4) sleeps 150 ms,
(5) awaits `simulatePaste`. Any throw is caught and turned into
`{ success: false, error }`. -/
def pasteText (st : MainState) (text : String) (env : PasteEnv) : PasteStep :=
  match env.clipboardErr with
  | some m => { main := st, trace := [], result := ⟨false, some m⟩ }
  | none =>
    let st1 : MainState := { st with clipboard := text }
    let hid := hideOverlay st1
    let tr := Ev.clipboardWrite text :: hid.2 ++ restoreTargetWindow hid.1
                ++ [Ev.sleepCall 150, Ev.injectPaste]
    match env.sendKeysErr with
    | none => { main := hid.1, trace := tr, result := ⟨true, none⟩ }
    | some m =>
        { main := hid.1, trace := tr,
          result := ⟨false, some ("SendKeys failed: " ++ m)⟩ }

/-- The electron-store contents, as a key-value association list (the store
object reads the persisted map on every `get`, so one value per key). -/
def Store := List (String × String)

/-- Operation `s.get(k)` on the electron-store. -/
def storeGet : Store → String → Option String
  | [], _ => none
  | (k1, v) :: rest, k => if k1 = k then some v else storeGet rest k

/-- Operation `s.set(k, v)` on the electron-store. -/
def storeSet (s : Store) (k v : String) : Store :=
  (k, v) :: s.filter (fun p => decide (p.1 ≠ k))

/-- The `get-api-key` IPC handler (main.js): `s.get("groqApiKey") || ""`,
reading the store at the moment of the call. -/
def getApiKeyHandler (s : Store) : String :=
  jsOr (storeGet s "groqApiKey") ""

/-- The `save-api-key` IPC handler (main.js, key-input window): stores the
trimmed key when it is non-blank, otherwise leaves the store unchanged. -/
def saveApiKeyHandler (s : Store) (key : String) : Store :=
  if jsTrim key = "" then s else storeSet s "groqApiKey" (jsTrim key)

/-- The overlay-renderer module-level state (`overlay.js`): the recording
and processing flags, the buffered audio chunk sizes (`audioChunks`; with
no timeslice the MediaRecorder delivers data only on stop), whether the
MediaRecorder is active (`state !== "inactive"`), and the visible status
label. -/
structure RendererState where
  isRecording : Bool
  isProcessing : Bool
  recorderActive : Bool
  audioChunks : List Nat
  status : String
  deriving DecidableEq, Repr

/-- Outcome of one `fetch` call: the promise rejected (network failure),
the response arrived with `!response.ok` (the parsed `error.message` may be
missing), or it succeeded with a payload. -/
inductive FetchOutcome (α : Type) where
  | reject (msg : String) : FetchOutcome α
  | httpError (status : Nat) (apiMsg : Option String) : FetchOutcome α
  | ok (payload : α) : FetchOutcome α
  deriving DecidableEq, Repr

/-- Model of `transcribeAudio` (overlay.js): POSTs the audio to the transcription
endpoint with the given key. On `!response.ok` it throws
`parsed.error?.message || "HTTP <status>"`; on success it returns the parsed
JSON, whose `text` field may be absent (`none`). Returns the trace of the
call together with the thrown/returned value. -/
def transcribeAudio (apiKey : String) (out : FetchOutcome (Option String)) :
    List Ev × Except String (Option String) :=
  ([Ev.fetchTranscription apiKey],
   match out with
   | .reject m => .error m
   | .httpError status apiMsg =>
       .error (jsOr apiMsg ("HTTP " ++ toString status))
   | .ok payload => .ok payload)

/-- Model of `correctWithLLM` (overlay.js): POSTs the raw text to the chat endpoint.
On `!response.ok` it throws `parsed.error?.message || "LLM HTTP <status>"`.
On success it takes `data.choices?.[0]?.message?.content?.trim()` (the
payload is `none` when any link of that chain is missing) and throws
`"LLM returned empty response"` when the result is falsy, otherwise returns
the trimmed corrected text. -/
def correctWithLLM (rawText apiKey : String)
    (out : FetchOutcome (Option String)) : List Ev × Except String String :=
  ([Ev.fetchCorrection apiKey rawText],
   match out with
   | .reject m => .error m
   | .httpError status apiMsg =>
       .error (jsOr apiMsg ("LLM HTTP " ++ toString status))
   | .ok payload =>
       let corrected := jsTrim (payload.getD "")
       if corrected = "" then .error "LLM returned empty response"
       else .ok corrected)

/-- External outcomes for one run of the processing pipeline: the result of
the transcription fetch, of the correction fetch, and of the steps inside
the `paste-text` handler. -/
structure PipelineEnv where
  transcribeHttp : FetchOutcome (Option String)
  correctHttp : FetchOutcome (Option String)
  pasteEnv : PasteEnv
  deriving DecidableEq, Repr

/-- Result of one run of `handleRecordingStop`: final renderer state, final
main-process state, event trace, the error logged by the catch block (if
any), and the value resolved by the `paste-text` handler (if reached). -/
structure PipelineResult where
  rend : RendererState
  main : MainState
  trace : List Ev
  pipelineError : Option String
  pasteResult : Option PasteResult
  deriving DecidableEq, Repr

/-- Model of `handleRecordingStop` (overlay.js), the MediaRecorder `stop` handler:
with no buffered audio it sets status `"No audio"` and returns; otherwise it
sets `isProcessing`, fetches the API key over IPC (status `"No API key!"`
when blank), transcribes, short-circuits blank transcripts to status
`"No speech"`, corrects, and invokes the `paste-text` handler, setting
status `"✓ Done!"` or `"Paste failed"` from its result. Any throw is caught
(status `"Error!"`), and the `finally` clears `isProcessing`. -/
def handleRecordingStop (rend : RendererState) (main : MainState)
    (store : Store) (env : PipelineEnv) : PipelineResult :=
  if rend.audioChunks.length = 0 then
    { rend := { rend with status := "No audio" }, main := main, trace := [],
      pipelineError := none, pasteResult := none }
  else
    let rend1 : RendererState := { rend with isProcessing := true }
    let apiKey := getApiKeyHandler store
    if apiKey = "" then
      { rend := { rend1 with status := "No API key!", isProcessing := false },
        main := main, trace := [Ev.getApiKeyCall],
        pipelineError := none, pasteResult := none }
    else
      let t := transcribeAudio apiKey env.transcribeHttp
      match t.2 with
      | .error m =>
          { rend := { rend1 with status := "Error!", isProcessing := false },
            main := main, trace := Ev.getApiKeyCall :: t.1,
            pipelineError := some m, pasteResult := none }
      | .ok payload =>
          let rawText := jsOr payload ""
          if jsTrim rawText = "" then
            { rend := { rend1 with status := "No speech", isProcessing := false },
              main := main, trace := Ev.getApiKeyCall :: t.1,
              pipelineError := none, pasteResult := none }
          else
            let c := correctWithLLM rawText apiKey env.correctHttp
            match c.2 with
            | .error m =>
                { rend := { rend1 with status := "Error!", isProcessing := false },
                  main := main, trace := Ev.getApiKeyCall :: t.1 ++ c.1,
                  pipelineError := some m, pasteResult := none }
            | .ok corrected =>
                let p := pasteText main corrected env.pasteEnv
                let finalStatus :=
                  if p.result.success then "✓ Done!" else "Paste failed"
                { rend := { rend1 with status := finalStatus, isProcessing := false },
                  main := p.main,
                  trace := Ev.getApiKeyCall :: t.1 ++ c.1 ++ p.trace,
                  pipelineError := none, pasteResult := some p.result }

/-- Model of `stopRecording` (overlay.js): stops the MediaRecorder and its tracks when
active and clears `isRecording`. (The recorder later fires `dataavailable`
with the buffered data, then `stop`, which runs `handleRecordingStop`.) -/
def stopRecording (rend : RendererState) : RendererState :=
  { rend with isRecording := false, recorderActive := false }

/-- Model of `resetUI` (overlay.js), run on the `reset-ui` IPC message: stops the
recording if one is active, clears `isProcessing` and resets the status
label. -/
def resetUI (rend : RendererState) : RendererState :=
  let r := if rend.isRecording then stopRecording rend else rend
  { r with isProcessing := false, status := "Ready" }

/-- Combined system state and trace after one activation trigger. -/
structure SysResult where
  main : MainState
  rend : RendererState
  trace : List Ev
  deriving DecidableEq, Repr

/-- One activation trigger (global shortcut or tray double-click), followed
to quiescence. Hidden overlay: `showOverlay` runs (capturing the foreground
window with outcome `osResult`). Visible overlay: `hideOverlay` runs and the
renderer gets `reset-ui`; if a recording was active, `resetUI` stops it, the
recorder delivers its buffered data (`finalChunkSize`, pushed by the
`dataavailable` handler when positive) and the `stop` event runs
`handleRecordingStop` on the resulting chunk list. -/
def pressHotkey (main : MainState) (rend : RendererState)
    (osResult : Option String) (finalChunkSize : Nat) (store : Store)
    (env : PipelineEnv) : SysResult :=
  if main.isOverlayVisible then
    let hid := hideOverlay main
    if rend.isRecording ∧ rend.recorderActive then
      let rend1 := resetUI rend
      let rend2 : RendererState :=
        if finalChunkSize > 0 then
          { rend1 with audioChunks := rend1.audioChunks ++ [finalChunkSize] }
        else rend1
      let res := handleRecordingStop rend2 hid.1 store env
      { main := res.main, rend := res.rend, trace := hid.2 ++ res.trace }
    else
      { main := hid.1, rend := resetUI rend, trace := hid.2 }
  else
    let shown := showOverlay main osResult
    { main := shown.1, rend := rend, trace := shown.2 }

/-! ### Claim theorems -/

/-- C2: for every Idle-to-Recording activation (overlay not visible), the
activation trigger produces exactly the trace
capture-foreground, set-position, show, focus — so the foreground-window
capture happens strictly before the overlay window is shown or focused. -/
theorem c2_capture_before_overlay_shown (main : MainState) (cap : Option String)
    (h : main.isOverlayVisible = false) :
    (toggleOverlay main cap).2 =
      [Ev.captureForeground, Ev.setPosition, Ev.showWindow, Ev.focusWindow] := by
  cases cap <;> simp [toggleOverlay, showOverlay, captureTargetWindow, h]

/-- Witness for C2 at a concrete idle state. -/
theorem c2_witness :
    (⟨"", false, none⟩ : MainState).isOverlayVisible = false ∧
    (toggleOverlay ⟨"", false, none⟩ (some "42")).2 =
      [Ev.captureForeground, Ev.setPosition, Ev.showWindow, Ev.focusWindow] :=
  ⟨rfl, c2_capture_before_overlay_shown ⟨"", false, none⟩ (some "42") rfl⟩

/-- C3: in the paste-text handler, when the clipboard write does not throw,
the clipboard-write event is the first event of the delivery trace (hence
precedes every focus-restore and paste-injection event), and the final
clipboard holds the delivered text whatever the outcomes of the restore and
injection steps. -/
theorem c3_clipboard_set_before_delivery (main : MainState) (text : String)
    (env : PasteEnv) (h : env.clipboardErr = none) :
    (pasteText main text env).main.clipboard = text ∧
    ∃ rest, (pasteText main text env).trace = Ev.clipboardWrite text :: rest := by
  obtain ⟨ce, re, se⟩ := env
  cases h
  cases se <;> simp [pasteText, hideOverlay, restoreTargetWindow]

/-- Witness for C3: concrete delivery where both restore and injection fail,
clipboard still set and written first. -/
theorem c3_witness :
    (⟨none, some "restore failed", some "exec failed"⟩ : PasteEnv).clipboardErr = none ∧
    ((pasteText ⟨"old", true, some "7"⟩ "Hello, world."
        ⟨none, some "restore failed", some "exec failed"⟩).main.clipboard
      = "Hello, world." ∧
    ∃ rest, (pasteText ⟨"old", true, some "7"⟩ "Hello, world."
        ⟨none, some "restore failed", some "exec failed"⟩).trace
      = Ev.clipboardWrite "Hello, world." :: rest) := by
  refine ⟨rfl, c3_clipboard_set_before_delivery _ _ _ rfl⟩

/-- C4: when the preceding steps succeed (clipboard write does not throw) and
a non-blank target handle was captured, the paste-text handler performs
exactly, in order: clipboard write, overlay hide, focus restore to the
captured handle, 150 ms settle delay, paste injection. -/
theorem c4_delivery_sequence (main : MainState) (text hWnd : String)
    (env : PasteEnv) (hclip : env.clipboardErr = none)
    (hh : main.targetWindowHandle = some hWnd) (hne : ¬ hWnd = "") :
    (pasteText main text env).trace =
      [Ev.clipboardWrite text, Ev.hideWindow, Ev.sendResetUI,
       Ev.restoreCall hWnd, Ev.sleepCall 150, Ev.injectPaste] := by
  obtain ⟨ce, re, se⟩ := env
  cases hclip
  cases se <;> simp [pasteText, hideOverlay, restoreTargetWindow, hh, hne]

/-- Witness for C4 at a concrete state and successful outcomes. -/
theorem c4_witness :
    (⟨none, none, none⟩ : PasteEnv).clipboardErr = none ∧
    (⟨"", true, some "1234"⟩ : MainState).targetWindowHandle = some "1234" ∧
    ¬ "1234" = "" ∧
    (pasteText ⟨"", true, some "1234"⟩ "hi" ⟨none, none, none⟩).trace =
      [Ev.clipboardWrite "hi", Ev.hideWindow, Ev.sendResetUI,
       Ev.restoreCall "1234", Ev.sleepCall 150, Ev.injectPaste] :=
  ⟨rfl, rfl, by decide,
   c4_delivery_sequence ⟨"", true, some "1234"⟩ "hi" "1234" ⟨none, none, none⟩
     rfl rfl (by decide)⟩

/-- C5: when the foreground capture throws, the stored handle is explicitly
`null` (never a stale handle from before), a later delivery makes no
OS focus-restore call at all, and the delivery still reaches the paste
injection. -/
theorem c5_unknown_handle_safe (main : MainState) (text : String)
    (env : PasteEnv) (hclip : env.clipboardErr = none) :
    (captureTargetWindow main none).1.targetWindowHandle = none ∧
    (∀ h, Ev.restoreCall h ∉
        (pasteText (captureTargetWindow main none).1 text env).trace) ∧
    Ev.injectPaste ∈
      (pasteText (captureTargetWindow main none).1 text env).trace := by
  obtain ⟨ce, re, se⟩ := env
  cases hclip
  cases se <;> simp [pasteText, captureTargetWindow, hideOverlay, restoreTargetWindow]

/-- Witness for C5: stale handle `"999"` before the failed capture; no
restore call is made and injection is still attempted. -/
theorem c5_witness :
    (⟨none, none, none⟩ : PasteEnv).clipboardErr = none ∧
    ((captureTargetWindow ⟨"", false, some "999"⟩ none).1.targetWindowHandle = none ∧
    (∀ h, Ev.restoreCall h ∉
        (pasteText (captureTargetWindow ⟨"", false, some "999"⟩ none).1 "t"
          ⟨none, none, none⟩).trace) ∧
    Ev.injectPaste ∈
      (pasteText (captureTargetWindow ⟨"", false, some "999"⟩ none).1 "t"
        ⟨none, none, none⟩).trace) :=
  ⟨rfl, c5_unknown_handle_safe ⟨"", false, some "999"⟩ "t" ⟨none, none, none⟩ rfl⟩

/-- C10: the paste-text handler never propagates an exception: for every
input text and every combination of step outcomes it resolves with either
`{success := true, error := none}` or `{success := false, error := some m}`. -/
theorem c10_paste_handler_never_throws (main : MainState) (text : String)
    (env : PasteEnv) :
    ((pasteText main text env).result.success = true ∧
      (pasteText main text env).result.error = none) ∨
    ((pasteText main text env).result.success = false ∧
      ∃ m, (pasteText main text env).result.error = some m) := by
  obtain ⟨ce, re, se⟩ := env
  cases ce <;> cases se <;> simp [pasteText]

/-! ### Pipeline helper lemmas -/

/-- The paste-text handler never re-shows a hidden overlay. -/
theorem pasteText_overlay_hidden (st : MainState) (text : String)
    (env : PasteEnv) (h : st.isOverlayVisible = false) :
    (pasteText st text env).main.isOverlayVisible = false := by
  unfold pasteText hideOverlay
  split
  · exact h
  · split <;> rfl

/-- The stop handler never touches the `isRecording` flag. -/
theorem handleRecordingStop_isRecording (r : RendererState) (m : MainState)
    (s : Store) (e : PipelineEnv) :
    (handleRecordingStop r m s e).rend.isRecording = r.isRecording := by
  unfold handleRecordingStop
  split
  · rfl
  dsimp only
  split
  · rfl
  split
  · rfl
  split
  · rfl
  split <;> rfl

/-- Once the overlay is hidden, running the stop handler never re-shows it. -/
theorem handleRecordingStop_overlay_hidden (r : RendererState) (m : MainState)
    (s : Store) (e : PipelineEnv) (h : m.isOverlayVisible = false) :
    (handleRecordingStop r m s e).main.isOverlayVisible = false := by
  unfold handleRecordingStop
  split
  · exact h
  dsimp only
  split
  · exact h
  split
  · exact h
  split
  · exact h
  split
  · exact h
  · exact pasteText_overlay_hidden _ _ _ h

/-- Whenever the stop handler runs with buffered audio and a non-blank key,
the transcription endpoint is called with the key read from the store at
this invocation. -/
theorem fetchTranscription_called (r : RendererState) (m : MainState)
    (s : Store) (e : PipelineEnv) (hc : r.audioChunks ≠ [])
    (hk : ¬ getApiKeyHandler s = "") :
    Ev.fetchTranscription (getApiKeyHandler s) ∈
      (handleRecordingStop r m s e).trace := by
  have hlen : ¬ r.audioChunks.length = 0 := by
    simpa [List.length_eq_zero] using hc
  unfold handleRecordingStop
  rw [if_neg hlen]
  dsimp only
  rw [if_neg hk]
  split
  · simp [transcribeAudio]
  split
  · simp [transcribeAudio]
  split
  · simp [transcribeAudio]
  · simp [transcribeAudio]

/-! ### Claim theorems for the processing pipeline -/

/-- C6: a transcription response whose `text` is blank (missing, empty or
whitespace-only) short-circuits the pipeline: the status becomes
`"No speech"` (not the generic `"Error!"`), and the correction endpoint is
never called. -/
theorem c6_blank_transcript_short_circuit (rend : RendererState)
    (main : MainState) (store : Store) (payload : Option String)
    (c : FetchOutcome (Option String)) (p : PasteEnv)
    (hc : rend.audioChunks ≠ []) (hk : ¬ getApiKeyHandler store = "")
    (hb : jsTrim (jsOr payload "") = "") :
    (handleRecordingStop rend main store ⟨.ok payload, c, p⟩).rend.status
        = "No speech" ∧
    ¬ (handleRecordingStop rend main store ⟨.ok payload, c, p⟩).rend.status
        = "Error!" ∧
    ∀ k t, Ev.fetchCorrection k t ∉
      (handleRecordingStop rend main store ⟨.ok payload, c, p⟩).trace := by
  have hlen : ¬ rend.audioChunks.length = 0 := by
    simpa [List.length_eq_zero] using hc
  have hs :
      (handleRecordingStop rend main store ⟨.ok payload, c, p⟩).rend.status
        = "No speech" := by
    simp [handleRecordingStop, hlen, hk, transcribeAudio, hb]
  refine ⟨hs, by rw [hs]; decide, ?_⟩
  simp [handleRecordingStop, hlen, hk, transcribeAudio, hb]

/-- Witness for C6: whitespace-only transcript, live correction outcome in
the environment, yet no correction call and status `"No speech"`. -/
theorem c6_witness :
    (⟨true, false, false, [9], "x"⟩ : RendererState).audioChunks ≠ [] ∧
    ¬ getApiKeyHandler [("groqApiKey", "k1")] = "" ∧
    jsTrim (jsOr (some "   ") "") = "" ∧
    ((handleRecordingStop ⟨true, false, false, [9], "x"⟩ ⟨"", true, none⟩
        [("groqApiKey", "k1")]
        ⟨.ok (some "   "), .ok (some "should not be used"),
          ⟨none, none, none⟩⟩).rend.status = "No speech" ∧
    ¬ (handleRecordingStop ⟨true, false, false, [9], "x"⟩ ⟨"", true, none⟩
        [("groqApiKey", "k1")]
        ⟨.ok (some "   "), .ok (some "should not be used"),
          ⟨none, none, none⟩⟩).rend.status = "Error!" ∧
    ∀ k t, Ev.fetchCorrection k t ∉
      (handleRecordingStop ⟨true, false, false, [9], "x"⟩ ⟨"", true, none⟩
        [("groqApiKey", "k1")]
        ⟨.ok (some "   "), .ok (some "should not be used"),
          ⟨none, none, none⟩⟩).trace) :=
  ⟨by decide, by decide, by decide,
   c6_blank_transcript_short_circuit _ _ _ _ _ _ (by decide) (by decide)
     (by decide)⟩

/-- C7: an HTTP 401 from the transcription endpoint moves the session to the
failed state whose recorded error is the 401 response's message (the server
message when present, otherwise the literal `"HTTP 401"`); the main-process
state — in particular the clipboard — is unchanged, and neither a clipboard
write nor a correction call appears in the trace. -/
theorem c7_unauthorized_failure (rend : RendererState) (main : MainState)
    (store : Store) (apiMsg : Option String)
    (c : FetchOutcome (Option String)) (p : PasteEnv)
    (hc : rend.audioChunks ≠ []) (hk : ¬ getApiKeyHandler store = "") :
    (handleRecordingStop rend main store ⟨.httpError 401 apiMsg, c, p⟩).rend.status
        = "Error!" ∧
    (handleRecordingStop rend main store ⟨.httpError 401 apiMsg, c, p⟩).pipelineError
        = some (jsOr apiMsg "HTTP 401") ∧
    (handleRecordingStop rend main store ⟨.httpError 401 apiMsg, c, p⟩).main
        = main ∧
    (∀ t, Ev.clipboardWrite t ∉
      (handleRecordingStop rend main store ⟨.httpError 401 apiMsg, c, p⟩).trace) ∧
    ∀ k t, Ev.fetchCorrection k t ∉
      (handleRecordingStop rend main store ⟨.httpError 401 apiMsg, c, p⟩).trace := by
  have hlen : ¬ rend.audioChunks.length = 0 := by
    simpa [List.length_eq_zero] using hc
  have h401 : ("HTTP " ++ toString 401 : String) = "HTTP 401" := by decide
  simp [handleRecordingStop, hlen, hk, transcribeAudio, h401]

/-- Witness for C7: 401 with no parsable server message; failure recorded as
`"HTTP 401"`, clipboard `"before"` untouched. -/
theorem c7_witness :
    (⟨true, false, false, [4], "x"⟩ : RendererState).audioChunks ≠ [] ∧
    ¬ getApiKeyHandler [("groqApiKey", "bad-key")] = "" ∧
    ((handleRecordingStop ⟨true, false, false, [4], "x"⟩ ⟨"before", true, none⟩
        [("groqApiKey", "bad-key")]
        ⟨.httpError 401 none, .ok (some "unused"), ⟨none, none, none⟩⟩).rend.status
        = "Error!" ∧
    (handleRecordingStop ⟨true, false, false, [4], "x"⟩ ⟨"before", true, none⟩
        [("groqApiKey", "bad-key")]
        ⟨.httpError 401 none, .ok (some "unused"), ⟨none, none, none⟩⟩).pipelineError
        = some (jsOr none "HTTP 401") ∧
    (handleRecordingStop ⟨true, false, false, [4], "x"⟩ ⟨"before", true, none⟩
        [("groqApiKey", "bad-key")]
        ⟨.httpError 401 none, .ok (some "unused"), ⟨none, none, none⟩⟩).main
        = ⟨"before", true, none⟩ ∧
    (∀ t, Ev.clipboardWrite t ∉
      (handleRecordingStop ⟨true, false, false, [4], "x"⟩ ⟨"before", true, none⟩
        [("groqApiKey", "bad-key")]
        ⟨.httpError 401 none, .ok (some "unused"), ⟨none, none, none⟩⟩).trace) ∧
    ∀ k t, Ev.fetchCorrection k t ∉
      (handleRecordingStop ⟨true, false, false, [4], "x"⟩ ⟨"before", true, none⟩
        [("groqApiKey", "bad-key")]
        ⟨.httpError 401 none, .ok (some "unused"), ⟨none, none, none⟩⟩).trace) :=
  ⟨by decide, by decide,
   c7_unauthorized_failure _ _ _ _ _ _ (by decide) (by decide)⟩

/-- C8: an empty completion (missing or whitespace-only message content)
from the correction endpoint fails the pipeline: the failure is recorded as
`"LLM returned empty response"`, the generic error status is shown, and no
delivery happens at all — in particular the raw transcription text is never
written to the clipboard. -/
theorem c8_empty_completion_is_failure (rend : RendererState)
    (main : MainState) (store : Store) (payload cpayload : Option String)
    (p : PasteEnv) (hc : rend.audioChunks ≠ [])
    (hk : ¬ getApiKeyHandler store = "")
    (hraw : ¬ jsTrim (jsOr payload "") = "")
    (hcp : jsTrim (cpayload.getD "") = "") :
    (handleRecordingStop rend main store ⟨.ok payload, .ok cpayload, p⟩).rend.status
        = "Error!" ∧
    (handleRecordingStop rend main store ⟨.ok payload, .ok cpayload, p⟩).pipelineError
        = some "LLM returned empty response" ∧
    (handleRecordingStop rend main store ⟨.ok payload, .ok cpayload, p⟩).pasteResult
        = none ∧
    ∀ t, Ev.clipboardWrite t ∉
      (handleRecordingStop rend main store ⟨.ok payload, .ok cpayload, p⟩).trace := by
  have hlen : ¬ rend.audioChunks.length = 0 := by
    simpa [List.length_eq_zero] using hc
  simp [handleRecordingStop, hlen, hk, transcribeAudio, correctWithLLM, hraw, hcp]

/-- Witness for C8: the model returns only whitespace; pipeline fails and
nothing reaches the clipboard. -/
theorem c8_witness :
    (⟨true, false, false, [3], "x"⟩ : RendererState).audioChunks ≠ [] ∧
    ¬ getApiKeyHandler [("groqApiKey", "k")] = "" ∧
    ¬ jsTrim (jsOr (some "raw words") "") = "" ∧
    jsTrim ((some "  " : Option String).getD "") = "" ∧
    ((handleRecordingStop ⟨true, false, false, [3], "x"⟩ ⟨"keep", false, none⟩
        [("groqApiKey", "k")]
        ⟨.ok (some "raw words"), .ok (some "  "), ⟨none, none, none⟩⟩).rend.status
        = "Error!" ∧
    (handleRecordingStop ⟨true, false, false, [3], "x"⟩ ⟨"keep", false, none⟩
        [("groqApiKey", "k")]
        ⟨.ok (some "raw words"), .ok (some "  "), ⟨none, none, none⟩⟩).pipelineError
        = some "LLM returned empty response" ∧
    (handleRecordingStop ⟨true, false, false, [3], "x"⟩ ⟨"keep", false, none⟩
        [("groqApiKey", "k")]
        ⟨.ok (some "raw words"), .ok (some "  "), ⟨none, none, none⟩⟩).pasteResult
        = none ∧
    ∀ t, Ev.clipboardWrite t ∉
      (handleRecordingStop ⟨true, false, false, [3], "x"⟩ ⟨"keep", false, none⟩
        [("groqApiKey", "k")]
        ⟨.ok (some "raw words"), .ok (some "  "), ⟨none, none, none⟩⟩).trace) :=
  ⟨by decide, by decide, by decide, by decide,
   c8_empty_completion_is_failure _ _ _ _ _ _ (by decide) (by decide) (by decide)
     (by decide)⟩

/-- Saving a non-blank key through the save-api-key handler makes its
trimmed value the one returned by the get-api-key handler. -/
theorem getApiKey_after_save (s : Store) (k : String) (hk : ¬ jsTrim k = "") :
    getApiKeyHandler (saveApiKeyHandler s k) = jsTrim k := by
  simp [getApiKeyHandler, saveApiKeyHandler, storeSet, storeGet, jsOr, hk]

/-- C9: the credential is read from the store at the start of every pipeline
run and no process state retains it: whatever key the first session used,
after the stored credential is changed to `k2` the next session's
transcription call carries the freshly stored (trimmed) `k2` — no restart
involved, and arbitrary intervening renderer/main state. -/
theorem c9_no_credential_caching (rend1 rend2 : RendererState)
    (main1 main2 : MainState) (s1 : Store) (k2 : String)
    (env1 env2 : PipelineEnv)
    (hc1 : rend1.audioChunks ≠ []) (hc2 : rend2.audioChunks ≠ [])
    (hk1 : ¬ getApiKeyHandler s1 = "") (hk2 : ¬ jsTrim k2 = "") :
    Ev.fetchTranscription (getApiKeyHandler s1) ∈
      (handleRecordingStop rend1 main1 s1 env1).trace ∧
    Ev.fetchTranscription (jsTrim k2) ∈
      (handleRecordingStop rend2 main2 (saveApiKeyHandler s1 k2) env2).trace := by
  refine ⟨fetchTranscription_called _ _ _ _ hc1 hk1, ?_⟩
  have h := getApiKey_after_save s1 k2 hk2
  have hm := fetchTranscription_called rend2 main2 (saveApiKeyHandler s1 k2)
    env2 hc2 (by rw [h]; exact hk2)
  rwa [h] at hm

/-- Witness for C9: key `"oldkey"` is used by the first session; after the
user saves `" newkey "`, the second session calls the transcription endpoint
with `"newkey"`. -/
theorem c9_witness :
    (⟨false, false, false, [2], "a"⟩ : RendererState).audioChunks ≠ [] ∧
    (⟨false, false, false, [5], "b"⟩ : RendererState).audioChunks ≠ [] ∧
    ¬ getApiKeyHandler [("groqApiKey", "oldkey")] = "" ∧
    ¬ jsTrim " newkey " = "" ∧
    (Ev.fetchTranscription (getApiKeyHandler [("groqApiKey", "oldkey")]) ∈
      (handleRecordingStop ⟨false, false, false, [2], "a"⟩ ⟨"", false, none⟩
        [("groqApiKey", "oldkey")]
        ⟨.ok (some "one"), .ok (some "One."), ⟨none, none, none⟩⟩).trace ∧
    Ev.fetchTranscription (jsTrim " newkey ") ∈
      (handleRecordingStop ⟨false, false, false, [5], "b"⟩ ⟨"", false, none⟩
        (saveApiKeyHandler [("groqApiKey", "oldkey")] " newkey ")
        ⟨.ok (some "two"), .ok (some "Two."), ⟨none, none, none⟩⟩).trace) :=
  ⟨by decide, by decide, by decide, by decide,
   c9_no_credential_caching _ _ _ _ _ _ _ _ (by decide) (by decide) (by decide)
     (by decide)⟩

/-- C1 (counterexample): a concrete session in the `Recording` state — the
overlay is visible, the recorder is active with 7 buffered bytes to deliver,
a key `"gsk_test"` is stored — receives a second activation trigger. The
claim says the session is cancelled with no remote calls; instead the
resulting trace contains the transcription call and the correction call, so
the audio buffer was not discarded and remote calls were made. -/
theorem c1_counterexample :
    Ev.fetchTranscription "gsk_test" ∈
      (pressHotkey ⟨"", true, some "1234"⟩ ⟨true, false, true, [], "Recording…"⟩
        none 7 [("groqApiKey", "gsk_test")]
        ⟨.ok (some "hello world"), .ok (some "Hello, world."),
          ⟨none, none, none⟩⟩).trace ∧
    Ev.fetchCorrection "gsk_test" "hello world" ∈
      (pressHotkey ⟨"", true, some "1234"⟩ ⟨true, false, true, [], "Recording…"⟩
        none 7 [("groqApiKey", "gsk_test")]
        ⟨.ok (some "hello world"), .ok (some "Hello, world."),
          ⟨none, none, none⟩⟩).trace := by
  decide

/-- C1 (amended): a second activation trigger while `Recording` hides the
overlay (the toggle returns the visible state to idle and no second
recording starts: `isRecording` ends false), but the audio buffer is not
discarded — the recording-stop handler still runs on it, and when the
buffered audio is non-empty and a key is stored, the remote transcription
call is made for that session. -/
theorem c1_amended_trigger_hides_but_processes (main : MainState)
    (rend : RendererState) (cap : Option String) (n : Nat) (store : Store)
    (env : PipelineEnv) (hv : main.isOverlayVisible = true)
    (hr : rend.isRecording = true) (ha : rend.recorderActive = true)
    (hn : 0 < n) (hk : ¬ getApiKeyHandler store = "") :
    (pressHotkey main rend cap n store env).main.isOverlayVisible = false ∧
    (pressHotkey main rend cap n store env).rend.isRecording = false ∧
    Ev.fetchTranscription (getApiKeyHandler store) ∈
      (pressHotkey main rend cap n store env).trace := by
  unfold pressHotkey
  simp only [hv, hr, ha, and_self, if_true, ite_true]
  rw [if_pos hn]
  refine ⟨?_, ?_, ?_⟩
  · exact handleRecordingStop_overlay_hidden _ _ _ _ rfl
  · rw [handleRecordingStop_isRecording]
    simp [resetUI, stopRecording, hr]
  · refine List.mem_append_right _ ?_
    refine fetchTranscription_called _ _ _ _ ?_ hk
    simp

/-- Witness for C1 (amended) at the concrete recording session. -/
theorem c1_amended_witness :
    (⟨"", true, some "1234"⟩ : MainState).isOverlayVisible = true ∧
    (⟨true, false, true, [], "Recording…"⟩ : RendererState).isRecording = true ∧
    (⟨true, false, true, [], "Recording…"⟩ : RendererState).recorderActive = true ∧
    0 < 7 ∧
    ¬ getApiKeyHandler [("groqApiKey", "gsk_test")] = "" ∧
    ((pressHotkey ⟨"", true, some "1234"⟩ ⟨true, false, true, [], "Recording…"⟩
        none 7 [("groqApiKey", "gsk_test")]
        ⟨.httpError 500 none, .ok none, ⟨none, none, none⟩⟩).main.isOverlayVisible
        = false ∧
    (pressHotkey ⟨"", true, some "1234"⟩ ⟨true, false, true, [], "Recording…"⟩
        none 7 [("groqApiKey", "gsk_test")]
        ⟨.httpError 500 none, .ok none, ⟨none, none, none⟩⟩).rend.isRecording
        = false ∧
    Ev.fetchTranscription (getApiKeyHandler [("groqApiKey", "gsk_test")]) ∈
      (pressHotkey ⟨"", true, some "1234"⟩ ⟨true, false, true, [], "Recording…"⟩
        none 7 [("groqApiKey", "gsk_test")]
        ⟨.httpError 500 none, .ok none, ⟨none, none, none⟩⟩).trace) :=
  ⟨rfl, rfl, rfl, by decide, by decide,
   c1_amended_trigger_hides_but_processes _ _ _ _ _ _ rfl rfl rfl (by decide)
     (by decide)⟩

end STC
